import Mathlib

/-!
Verification of the webhook-driven IVR call router (`app.py`,
`analytics_db.py`, `analytics_api.py`) against its natural-language
specification.  The Python code is shallowly embedded here: dict-shaped
webhook payloads become structures of `Option`-valued fields, Python
truthiness is made explicit, the process-local `ROUTED_CALLS`/`ENDED_CALLS`
sets become `Finset String`, the SQLite tables become lists of records, and
outbound Telnyx commands become an explicit trace.  Timestamps are modelled
as natural numbers (ISO-8601 UTC strings compare in the same order).
-/

/-- Python truthiness filter for an optional string value: `None` and the
empty string are falsy; returns the value only when truthy. -/
def truthyStr : Option String → Option String
  | some s => if s.isEmpty then none else some s
  | none => none

/-- Python `str.strip()` (no argument): remove leading and trailing
whitespace. -/
def pyStrip (s : String) : String :=
  ⟨((s.data.dropWhile Char.isWhitespace).reverse.dropWhile Char.isWhitespace).reverse⟩

/-- Python `a or b` on optional string values (`None` and `""` are falsy). -/
def pyOr (a b : Option String) : Option String :=
  match a with
  | some s => if s.isEmpty then b else some s
  | none => b

/-- A JSON-ish Python value as it can occur under the `"result"`/`"dtmf"`
keys of a gather payload: either a (non-dict) string or a dict with
string values. -/
inductive PyVal where
  | str (s : String)
  | dict (entries : List (String × String))
deriving DecidableEq

/-- Python truthiness of a `PyVal`: a string is truthy iff non-empty, a
dict iff it has entries. -/
def PyVal.truthy : PyVal → Bool
  | .str s => !s.isEmpty
  | .dict l => !l.isEmpty

/-- Python `d.get(k)` on a dict value (`none` on a non-dict, but the code
only calls it after an `isinstance` check). -/
def PyVal.get : PyVal → String → Option String
  | .dict l, k => (l.find? (fun e => e.1 == k)).map (fun e => e.2)
  | .str _, _ => none

/-- Python `a or b` on optional `PyVal`s. -/
def pyOrVal (a b : Option PyVal) : Option PyVal :=
  match a with
  | some v => if v.truthy then some v else b
  | none => b

/-- The fields of a webhook event payload dict (`data["payload"]`) that
`app.py` reads; an absent key is `none`.  `fromF`/`toF` stand for the
`"from"`/`"to"` keys (`from` is a Lean keyword). -/
structure EvPayload where
  call_control_id : Option String := none
  fromF : Option String := none
  toF : Option String := none
  digit : Option String := none
  digits : Option String := none
  result : Option PyVal := none
  dtmf : Option PyVal := none
deriving DecidableEq

/-- `app.py` `_extract_digits`: `d = p.get("digit") or p.get("digits")`;
if truthy return `str(d).strip()`; else `res = p.get("result") or
p.get("dtmf") or {}`; if `res` is a dict return
`str(res.get("digits") or res.get("digit") or "").strip()`; else `""`. -/
def _extract_digits (ev : EvPayload) : String :=
  match truthyStr (pyOr ev.digit ev.digits) with
  | some s => pyStrip s
  | none =>
    match (pyOrVal ev.result ev.dtmf).getD (.dict []) with
    | .dict l =>
      pyStrip ((truthyStr (pyOr ((PyVal.dict l).get "digits") ((PyVal.dict l).get "digit"))).getD "")
    | .str _ => ""

/-- `app.py` `DIGIT_TO_DEPARTMENT = {"1": "sales", "2": "support",
"3": "porting"}`, as the dict's `.get`. -/
def DIGIT_TO_DEPARTMENT (d : String) : Option String :=
  if d = "1" then some "sales"
  else if d = "2" then some "support"
  else if d = "3" then some "porting"
  else none

/-- `app.py` `DEPARTMENT_URIS` with the source's default SIP URIs
(environment overrides are not modelled; no claim depends on the URI
values).  Indexed only at the three mapped departments. -/
def DEPARTMENT_URIS (dept : String) : String :=
  if dept = "sales" then "sip:agent1@sip.telnyx.com"
  else if dept = "support" then "sip:agent2@sip.telnyx.com"
  else if dept = "porting" then "sip:agent3@sip.telnyx.com"
  else ""

/-- Claim-side rendering of the spec's digit-extraction policy: the
candidate locations in their stated priority order — top-level `"digit"`,
top-level `"digits"`, then the nested `"result"`-or-`"dtmf"` object's
`"digits"` then `"digit"` (read only when that object is a dict). -/
def digitLocations (ev : EvPayload) : List (Option String) :=
  [ev.digit, ev.digits] ++
    (match (pyOrVal ev.result ev.dtmf).getD (.dict []) with
     | .dict l => [(PyVal.dict l).get "digits", (PyVal.dict l).get "digit"]
     | .str _ => [])

/-- First non-empty (truthy) value among the candidate locations. -/
def firstNonEmpty : List (Option String) → Option String
  | [] => none
  | o :: rest =>
    match truthyStr o with
    | some s => some s
    | none => firstNonEmpty rest

/-- Digit extraction as the spec words it: the first non-empty match among
the locations, trimmed, or the empty string when none matches. -/
def extract_digits_spec (ev : EvPayload) : String :=
  ((firstNonEmpty (digitLocations ev)).map pyStrip).getD ""

/-! ## Event store (`analytics_db.py`)

The four SQLite tables become lists of records; `INSERT` appends at the
end of the table list.  Row timestamps are `Nat` (ISO UTC strings are
order-isomorphic to write instants).  Schema initialization (`ensure_db`)
and the swallowed SQLite failures have no observable effect in the pure
embedding. -/

/-- A row of the `calls` table. -/
structure CallRec where
  call_control_id : String
  from_number : String
  to_number : String
  created_at : Nat
deriving DecidableEq

/-- A row of the `call_events` table.  `payload_json` is `NULL` when the
payload dict was falsy (`json.dumps(payload_dict) if payload_dict else
None`). -/
structure EventRec where
  call_control_id : String
  event_type : String
  ts : Nat
  payload_json : Option EvPayload
deriving DecidableEq

/-- A row of the `ivr_interactions` table. -/
structure IvrRec where
  call_control_id : String
  digit : String
  department : String
  ts : Nat
deriving DecidableEq

/-- A row of the `transfers` table. -/
structure TransferRec where
  call_control_id : String
  to_sip_uri : String
  status : String
  ts : Nat
deriving DecidableEq

/-- The analytics SQLite database. -/
structure DB where
  calls : List CallRec
  call_events : List EventRec
  ivr_interactions : List IvrRec
  transfers : List TransferRec
deriving DecidableEq

/-- `save_call_if_new`: `SELECT 1 FROM calls WHERE call_control_id = ?`;
if a row exists, return; else `INSERT` the new call row. -/
def save_call_if_new (db : DB) (now : Nat) (ccid from_number to_number : String) : DB :=
  if db.calls.any (fun c => c.call_control_id == ccid) then db
  else { db with calls := db.calls ++ [⟨ccid, from_number, to_number, now⟩] }

/-- Python truthiness of a payload dict: falsy iff it has no keys.  The
embedding carries only the keys `app.py` reads, so "no keys" means all
fields absent. -/
def EvPayload.pyTruthy (p : EvPayload) : Bool :=
  p.call_control_id.isSome || p.fromF.isSome || p.toF.isSome ||
    p.digit.isSome || p.digits.isSome || p.result.isSome || p.dtmf.isSome

/-- `log_event`: unconditional `INSERT` into `call_events`, with
`payload_json = NULL` for a falsy payload dict. -/
def log_event (db : DB) (now : Nat) (ccid event_type : String) (ev : EvPayload) : DB :=
  { db with call_events :=
      db.call_events ++ [⟨ccid, event_type, now, if ev.pyTruthy then some ev else none⟩] }

/-- `log_ivr_selection`: rejected (logged, no-op) when the department is
not one of the three valid values, else `INSERT` into `ivr_interactions`. -/
def log_ivr_selection (db : DB) (now : Nat) (ccid digit department : String) : DB :=
  if department ∈ (["sales", "support", "porting"] : List String) then
    { db with ivr_interactions := db.ivr_interactions ++ [⟨ccid, digit, department, now⟩] }
  else db

/-- `log_transfer`: rejected (logged, no-op) when the status is not
`success`/`error`, else `INSERT` into `transfers`. -/
def log_transfer (db : DB) (now : Nat) (ccid to_sip_uri status : String) : DB :=
  if status ∈ (["success", "error"] : List String) then
    { db with transfers := db.transfers ++ [⟨ccid, to_sip_uri, status, now⟩] }
  else db

/-! ## Provider client and webhook handler (`app.py`)

Outbound Telnyx HTTP success/failure is an oracle (`Provider`); each call
to `answer_call`/`transfer_call`/`start_menu` issues one command, recorded
in a trace. -/

/-- One outbound Telnyx Call Control command (one HTTP POST). -/
inductive ProvCmd where
  | answer (ccid : String)
  | menu (ccid : String)
  | transfer (ccid : String) (sip_uri : String)
deriving DecidableEq

/-- The environment's response to each provider command: `true` iff the
POST returns status 200 (any exception, timeout or other status is
failure, per `_post`/the status checks). -/
structure Provider where
  answerOk : String → Bool
  transferOk : String → String → Bool
  menuOk : String → Bool

/-- `answer_call`: one POST to `/actions/answer`; returns the success
boolean. -/
def answer_call (prov : Provider) (ccid : String) : Bool × List ProvCmd :=
  (prov.answerOk ccid, [ProvCmd.answer ccid])

/-- `transfer_call`: one POST to `/actions/transfer`; returns the success
boolean. -/
def transfer_call (prov : Provider) (ccid sip_uri : String) : Bool × List ProvCmd :=
  (prov.transferOk ccid sip_uri, [ProvCmd.transfer ccid sip_uri])

/-- `start_menu`: one POST to `/actions/gather_using_speak`; the response
status is inspected only to log a failure and the function returns
nothing, so the outcome (`Provider.menuOk`) is discarded and never read
by the routing flow. -/
def start_menu (_prov : Provider) (ccid : String) : List ProvCmd :=
  [ProvCmd.menu ccid]

/-- The process state of `app.py`: the two module-level idempotence sets
plus the analytics store. -/
structure ServerState where
  ROUTED_CALLS : Finset String
  ENDED_CALLS : Finset String
  db : DB
deriving DecidableEq

/-- The webhook HTTP response: always a JSON object with a `status` key;
`digit` is present only on `gather_processed`, `event` only on the
generic `received` acknowledgement (where its value may be JSON null). -/
structure Response where
  status_code : Nat
  status : String
  digit : Option String := none
  event : Option (Option String) := none
deriving DecidableEq

/-- The value found under the `"payload"` key of the `data` dict: absent
keys default to `{}` (modelled at the access site), and a non-dict value
makes any `ev.get(...)` raise `AttributeError`. -/
inductive PayloadField where
  | nonDict
  | obj (p : EvPayload)
deriving DecidableEq

/-- The value found under the `"data"` key of the body: a non-dict value
makes `data.get(...)` raise (outside the handler's try block). -/
inductive DataField where
  | nonDict
  | obj (event_type : Option String) (payload : Option PayloadField)
deriving DecidableEq

/-- The request body as `request.get_json(silent=True)` yields it:
unparseable bodies give `None` (then `or {}`), a parsed truthy non-dict
(list/number/non-empty string) raises on `.get`, a parsed falsy non-dict
(null/0/""/[]/false) falls back to `{}` via `or {}`, and a JSON object is
read through its `"data"` key. -/
inductive Body where
  | badJson
  | truthyNonDict
  | falsyNonDict
  | obj (data : Option DataField)
deriving DecidableEq

/-- Lines 100–103 of `app.py` (outside the try block): obtain
`event_type` and the `ev` payload field, or raise `AttributeError`
(modelled as `Except.error ()`), which Flask turns into HTTP 500. -/
def reqData : Body → Except Unit (Option String × Option PayloadField)
  | .badJson => .ok (none, none)
  | .falsyNonDict => .ok (none, none)
  | .truthyNonDict => .error ()
  | .obj none => .ok (none, none)
  | .obj (some .nonDict) => .error ()
  | .obj (some (.obj event_type payload)) => .ok (event_type, payload)

/-- Read the `ev` dict: an absent `"payload"` key is the `{}` default; a
non-dict value raises at the first `ev.get(...)` (inside the try block,
hence caught by the handler's `except`). -/
def evDict : Option PayloadField → Except Unit EvPayload
  | none => .ok {}
  | some .nonDict => .error ()
  | some (.obj p) => .ok p

/-- The `{"status": "error"}` acknowledgement of the handler's `except`
branch. -/
def errorResp : Response := { status_code := 200, status := "error" }

/-- The body of the webhook handler's try block (`app.py` lines 105–166),
given the already-extracted `event_type` and payload field.  Internal
`AttributeError`s (non-dict `ev`) are caught by the `except` and produce
`errorResp` with the state unchanged (no store write or provider command
precedes any such access). -/
def webhookTry (prov : Provider) (now : Nat) (st : ServerState)
    (etype : Option String) (evf : Option PayloadField) :
    ServerState × Response × List ProvCmd :=
  if etype = some "call.initiated" then
    match evDict evf with
    | .error () => (st, errorResp, [])
    | .ok ev =>
      match truthyStr ev.call_control_id with
      | none => (st, { status_code := 200, status := "missing_call_control_id" }, [])
      | some ccid =>
        let from_number := (truthyStr ev.fromF).getD "unknown"
        let to_number := (truthyStr ev.toF).getD "unknown"
        let db1 := save_call_if_new st.db now ccid from_number to_number
        let db2 := log_event db1 now ccid "call.initiated" ev
        let ans := answer_call prov ccid
        if ans.1 then
          let menuCmds := start_menu prov ccid
          ({ st with db := db2 },
           { status_code := 200, status := "answered_and_menu_started" },
           ans.2 ++ menuCmds)
        else
          ({ st with db := db2 }, { status_code := 200, status := "answer_failed" }, ans.2)
  else if etype = some "call.gather.ended" then
    match evDict evf with
    | .error () => (st, errorResp, [])
    | .ok ev =>
      match truthyStr ev.call_control_id with
      | none => (st, { status_code := 200, status := "gather_ignored" }, [])
      | some ccid =>
        if ccid ∈ st.ROUTED_CALLS ∨ ccid ∈ st.ENDED_CALLS then
          (st, { status_code := 200, status := "gather_ignored" }, [])
        else
          let db1 := log_event st.db now ccid "call.gather.ended" ev
          let digit := _extract_digits ev
          match DIGIT_TO_DEPARTMENT digit with
          | some dept =>
            let db2 := log_ivr_selection db1 now ccid digit dept
            let to_uri := DEPARTMENT_URIS dept
            let tr := transfer_call prov ccid to_uri
            let db3 := log_transfer db2 now ccid to_uri (if tr.1 then "success" else "error")
            ({ st with
                db := db3
                ROUTED_CALLS := if tr.1 then insert ccid st.ROUTED_CALLS else st.ROUTED_CALLS },
             { status_code := 200, status := "gather_processed", digit := some digit },
             tr.2)
          | none =>
            let menuCmds := start_menu prov ccid
            ({ st with db := db1 },
             { status_code := 200, status := "gather_processed", digit := some digit },
             menuCmds)
  else if etype = some "call.hangup" then
    match evDict evf with
    | .error () => (st, errorResp, [])
    | .ok ev =>
      match truthyStr ev.call_control_id with
      | none => (st, { status_code := 200, status := "received" }, [])
      | some ccid =>
        let db1 := log_event st.db now ccid "call.hangup" ev
        ({ st with
            db := db1
            ENDED_CALLS := insert ccid st.ENDED_CALLS },
         { status_code := 200, status := "received" }, [])
  else
    match etype with
    | some t =>
      if t.isEmpty then
        (st, { status_code := 200, status := "received", event := some (some t) }, [])
      else
        match evDict evf with
        | .error () => (st, errorResp, [])
        | .ok ev =>
          match truthyStr ev.call_control_id with
          | none => (st, { status_code := 200, status := "received", event := some (some t) }, [])
          | some ccid =>
            let db1 := log_event st.db now ccid t ev
            ({ st with db := db1 },
             { status_code := 200, status := "received", event := some (some t) }, [])
    | none => (st, { status_code := 200, status := "received", event := some none }, [])

/-- The `/webhook` handler.  `Except.error ()` is an exception escaping
the handler (Flask answers HTTP 500); `Except.ok` carries the new process
state, the HTTP response, and the trace of provider commands issued. -/
def webhook (prov : Provider) (now : Nat) (st : ServerState) (body : Body) :
    Except Unit (ServerState × Response × List ProvCmd) :=
  match reqData body with
  | .error () => .error ()
  | .ok (etype, evf) => .ok (webhookTry prov now st etype evf)

/-- A `call.gather.ended` request body around the given payload field. -/
def gatherBody (evf : Option PayloadField) : Body :=
  Body.obj (some (.obj (some "call.gather.ended") evf))

/-- A `call.initiated` request body around the given payload field. -/
def initiatedBody (evf : Option PayloadField) : Body :=
  Body.obj (some (.obj (some "call.initiated") evf))

/-- A `call.hangup` request body around the given payload field. -/
def hangupBody (evf : Option PayloadField) : Body :=
  Body.obj (some (.obj (some "call.hangup") evf))

/-- The process state at startup: both idempotence sets empty, empty
store. -/
def initState : ServerState := ⟨∅, ∅, ⟨[], [], [], []⟩⟩

/-- A provider environment in which every outbound command succeeds. -/
def allOkProvider : Provider := ⟨fun _ => true, fun _ _ => true, fun _ => true⟩

/-- A provider environment in which every outbound command fails. -/
def allFailProvider : Provider := ⟨fun _ => false, fun _ _ => false, fun _ => false⟩

/-- Run one delivery and keep the resulting state (keeping the prior
state when the handler raises). -/
def stepState (prov : Provider) (now : Nat) (st : ServerState) (b : Body) : ServerState :=
  match webhook prov now st b with
  | .ok r => r.1
  | .error () => st

/-! ## Helper lemmas -/

/-- `truthyStr` distributes over Python `or`: the first truthy value
wins. -/
theorem truthyStr_pyOr (a b : Option String) :
    truthyStr (pyOr a b) =
      match truthyStr a with
      | some s => some s
      | none => truthyStr b := by
  cases a with
  | none => rfl
  | some s =>
    by_cases h : s.isEmpty <;> simp [truthyStr, pyOr, h]

/-- Scanning two candidate locations is the Python `or` of the two. -/
theorem firstNonEmpty_cons_cons (a b : Option String) (l : List (Option String)) :
    firstNonEmpty (a :: b :: l) =
      match truthyStr (pyOr a b) with
      | some s => some s
      | none => firstNonEmpty l := by
  rw [truthyStr_pyOr]
  rcases h : truthyStr a with _ | s <;> simp [firstNonEmpty, h]

/-- C7: For every gather payload, digit extraction tries the locations in
a fixed priority order — top-level `"digit"`, then top-level `"digits"`,
then the nested `"result"`-or-`"dtmf"` dict's `"digits"` then `"digit"` —
and returns the first non-empty match as a trimmed string, or the empty
string if none of the locations yields a non-empty value. -/
theorem C7_digit_extraction_priority (ev : EvPayload) :
    _extract_digits ev = extract_digits_spec ev := by
  unfold _extract_digits extract_digits_spec digitLocations
  rw [List.cons_append, List.cons_append, List.nil_append, firstNonEmpty_cons_cons]
  rcases h : truthyStr (pyOr ev.digit ev.digits) with _ | s
  · rcases hres : (pyOrVal ev.result ev.dtmf).getD (PyVal.dict []) with s' | entries
    · simp [firstNonEmpty]
    · rw [firstNonEmpty_cons_cons]
      rcases h2 : truthyStr (pyOr ((PyVal.dict entries).get "digits")
          ((PyVal.dict entries).get "digit")) with _ | s2
      · simp [h2]
        rfl
      · simp [h2]
  · simp

/-- C1: for every `call.gather.ended` delivery whose call id is missing
(absent or empty) or already in the routed or the ended set, the handler
returns the state completely unchanged (so no IvrSelection and no
Transfer record is written and both sets are untouched), issues no
provider command (in particular no transfer attempt), and acknowledges
with HTTP 200 and status `gather_ignored`. -/
theorem C1_gather_ignored_idempotence (prov : Provider) (now : Nat) (st : ServerState)
    (evf : Option PayloadField) (ev : EvPayload)
    (hev : evDict evf = .ok ev)
    (hig : truthyStr ev.call_control_id = none ∨
      ∃ c, truthyStr ev.call_control_id = some c ∧
        (c ∈ st.ROUTED_CALLS ∨ c ∈ st.ENDED_CALLS)) :
    webhook prov now st (gatherBody evf) =
      .ok (st, { status_code := 200, status := "gather_ignored" }, []) := by
  show Except.ok (webhookTry prov now st (some "call.gather.ended") evf) = _
  unfold webhookTry
  rw [if_neg (by decide), if_pos rfl, hev]
  rcases hig with h | ⟨c, hc, hmem⟩
  · simp only [h]
  · simp only [hc]
    rw [if_pos hmem]

/-- Every branch of the try-block body acknowledges with HTTP 200. -/
theorem webhookTry_status_code (prov : Provider) (now : Nat) (st : ServerState)
    (etype : Option String) (evf : Option PayloadField) :
    (webhookTry prov now st etype evf).2.1.status_code = 200 := by
  unfold webhookTry
  repeat' split
  all_goals dsimp only
  all_goals repeat' split
  all_goals rfl

/-- The request-body shapes on which `app.py` lines 100–103 (which run
outside the handler's try block) do not raise: everything except a parsed
truthy non-dict body and a non-dict `"data"` member. -/
def Body.parseOk : Body → Bool
  | .truthyNonDict => false
  | .obj (some .nonDict) => false
  | _ => true

/-- C4 (amended): for every inbound webhook request whose parsed JSON
body is not a truthy non-dict and whose `"data"` member, when present, is
a dict, the handler never raises and returns HTTP 200 with a JSON object
carrying a `status` field.  (The unamended claim fails on bodies such as
`[1]` or `{"data": 5}`: lines 100–103 run outside the try block and raise
`AttributeError`, which Flask turns into HTTP 500 —
see the counterexample.) -/
theorem C4_always_ok_200 (prov : Provider) (now : Nat) (st : ServerState) (body : Body)
    (h : body.parseOk = true) :
    ∃ out, webhook prov now st body = .ok out ∧ out.2.1.status_code = 200 := by
  match body with
  | .badJson =>
    exact ⟨_, rfl, webhookTry_status_code prov now st none none⟩
  | .falsyNonDict =>
    exact ⟨_, rfl, webhookTry_status_code prov now st none none⟩
  | .truthyNonDict => simp [Body.parseOk] at h
  | .obj none =>
    exact ⟨_, rfl, webhookTry_status_code prov now st none none⟩
  | .obj (some .nonDict) => simp [Body.parseOk] at h
  | .obj (some (.obj etype evf)) =>
    exact ⟨_, rfl, webhookTry_status_code prov now st etype evf⟩

/-- Witness for C4 (amended) at a concrete safe body. -/
theorem C4_always_ok_200_witness :
    Body.parseOk .badJson = true ∧
      ∃ out, webhook allOkProvider 0 initState .badJson = .ok out ∧
        out.2.1.status_code = 200 :=
  ⟨rfl, C4_always_ok_200 allOkProvider 0 initState .badJson rfl⟩

/-- Counterexample to C4 as stated: the malformed (but valid-JSON) body
`[1]` — a truthy non-dict — makes `payload.get("data", {})` raise
`AttributeError` outside the try block, so the handler raises to Flask
(HTTP 500) instead of acknowledging with 200. -/
theorem C4_counterexample :
    webhook allOkProvider 0 initState .truthyNonDict = .error () := rfl

/-- The routed set after one try-block run is either unchanged or grew by
the single call id of a non-ignored gather, which the idempotence guard
had just checked to be outside both sets. -/
theorem webhookTry_routed_growth (prov : Provider) (now : Nat) (st : ServerState)
    (etype : Option String) (evf : Option PayloadField) :
    (webhookTry prov now st etype evf).1.ROUTED_CALLS = st.ROUTED_CALLS ∨
      ∃ ccid, ccid ∉ st.ROUTED_CALLS ∧ ccid ∉ st.ENDED_CALLS ∧
        (webhookTry prov now st etype evf).1.ROUTED_CALLS = insert ccid st.ROUTED_CALLS := by
  unfold webhookTry
  repeat' split
  all_goals dsimp only
  all_goals repeat' split
  all_goals try exact Or.inl rfl
  all_goals rename_i ccid hcc hguard x s hdept htr
  all_goals push_neg at hguard
  all_goals exact Or.inr ⟨ccid, hguard.1, hguard.2, rfl⟩

/-- C6 (amended): the sets are not kept disjoint by the code — what holds
is the one-directional guard: a webhook delivery adds a call id to the
routed set only if that id was not in the ended set (nor in the routed
set) when the delivery started.  (`call.hangup` adds an already-routed id
to the ended set unconditionally, so reachable states with a call id in
both sets exist — see the counterexample.) -/
theorem C6_routed_added_only_when_not_ended (prov : Provider) (now : Nat)
    (st st' : ServerState) (resp : Response) (tr : List ProvCmd) (b : Body) (c : String)
    (h : webhook prov now st b = .ok (st', resp, tr))
    (hc : c ∈ st'.ROUTED_CALLS) (hnot : c ∉ st.ROUTED_CALLS) :
    c ∉ st.ENDED_CALLS := by
  unfold webhook at h
  rcases hr : reqData b with u | ⟨etype, evf⟩ <;> rw [hr] at h
  · exact absurd h (by simp)
  · simp only [Except.ok.injEq] at h
    have hst : (webhookTry prov now st etype evf).1.ROUTED_CALLS = st'.ROUTED_CALLS := by
      rw [h]
    rcases webhookTry_routed_growth prov now st etype evf with heq | ⟨ccid, h1, h2, heq⟩
    · rw [← hst, heq] at hc
      exact absurd hc hnot
    · rw [← hst, heq, Finset.mem_insert] at hc
      rcases hc with rfl | hc
      · exact h2
      · exact absurd hc hnot

/-- Witness for C6 (amended): a successful transfer of call `"c"` from
the initial state routes it; the theorem applied there concludes that
`"c"` was not in the (empty) ended set. -/
theorem C6_routed_added_only_when_not_ended_witness :
    "c" ∉ initState.ENDED_CALLS :=
  C6_routed_added_only_when_not_ended allOkProvider 0 initState
    (stepState allOkProvider 0 initState
      (gatherBody (some (.obj { call_control_id := some "c", digit := some "1" }))))
    { status_code := 200, status := "gather_processed", digit := some "1" }
    [ProvCmd.transfer "c" "sip:agent1@sip.telnyx.com"]
    (gatherBody (some (.obj { call_control_id := some "c", digit := some "1" })))
    "c" rfl (by decide) (by decide)

/-- Counterexample to C6 as stated: from the initial state, a
`call.gather.ended` for call `"c"` with digit 1 and a successful transfer
puts `"c"` into the routed set, and a subsequent `call.hangup` for `"c"`
adds it to the ended set unconditionally — the resulting reachable state
has `"c"` in both sets, so they are not disjoint. -/
theorem C6_counterexample :
    "c" ∈ (stepState allOkProvider 1
        (stepState allOkProvider 0 initState
          (gatherBody (some (.obj { call_control_id := some "c", digit := some "1" }))))
        (hangupBody (some (.obj { call_control_id := some "c" })))).ROUTED_CALLS ∧
      "c" ∈ (stepState allOkProvider 1
        (stepState allOkProvider 0 initState
          (gatherBody (some (.obj { call_control_id := some "c", digit := some "1" }))))
        (hangupBody (some (.obj { call_control_id := some "c" })))).ENDED_CALLS := by
  constructor <;> decide

/-- C10: for every `call.initiated` delivery whose answer provider call
succeeds, the handler acknowledges `answered_and_menu_started` no matter
how the menu-start provider call fares: `start_menu` discards its
outcome, so the entire result of the delivery is independent of the
provider's menu behaviour (`menuOk`). -/
theorem C10_menu_outcome_discarded (prov prov' : Provider) (now : Nat) (st : ServerState)
    (evf : Option PayloadField) (ev : EvPayload) (c : String)
    (hev : evDict evf = .ok ev)
    (hc : truthyStr ev.call_control_id = some c)
    (hans : prov.answerOk c = true)
    (ha : prov'.answerOk = prov.answerOk) (ht : prov'.transferOk = prov.transferOk) :
    (∃ st' tr, webhook prov now st (initiatedBody evf) =
        .ok (st', { status_code := 200, status := "answered_and_menu_started" }, tr)) ∧
      webhook prov' now st (initiatedBody evf) = webhook prov now st (initiatedBody evf) := by
  constructor
  · show ∃ st' tr, Except.ok (webhookTry prov now st (some "call.initiated") evf) = _
    unfold webhookTry
    rw [if_pos rfl, hev]
    simp only [hc, answer_call, hans, if_true, if_pos]
    exact ⟨_, _, rfl⟩
  · obtain ⟨a, t, m⟩ := prov
    obtain ⟨a', t', m'⟩ := prov'
    have ha2 : a' = a := ha
    have ht2 : t' = t := ht
    subst ha2
    subst ht2
    rfl

/-- Witness for C10: answer succeeds for call `"x"` under a provider
whose menu call fails, versus one where everything succeeds. -/
theorem C10_menu_outcome_discarded_witness :
    evDict (some (.obj { call_control_id := some "x" })) =
        .ok { call_control_id := some "x" } ∧
      truthyStr (EvPayload.call_control_id { call_control_id := some "x" }) = some "x" ∧
      allOkProvider.answerOk "x" = true ∧
      (∃ st' tr,
        webhook allOkProvider 0 initState
            (initiatedBody (some (.obj { call_control_id := some "x" }))) =
          .ok (st', { status_code := 200, status := "answered_and_menu_started" }, tr)) ∧
        webhook ⟨allOkProvider.answerOk, allOkProvider.transferOk, fun _ => false⟩ 0 initState
            (initiatedBody (some (.obj { call_control_id := some "x" }))) =
          webhook allOkProvider 0 initState
            (initiatedBody (some (.obj { call_control_id := some "x" }))) :=
  ⟨rfl, rfl, rfl,
    C10_menu_outcome_discarded allOkProvider
      ⟨allOkProvider.answerOk, allOkProvider.transferOk, fun _ => false⟩ 0 initState
      (some (.obj { call_control_id := some "x" })) { call_control_id := some "x" } "x"
      rfl rfl rfl rfl rfl⟩

/-- Appending the call's own row to a table with no row for that call id
leaves exactly one matching row. -/
theorem calls_filter_one (l : List CallRec) (c : String) (rec : CallRec)
    (h : ∀ r ∈ l, r.call_control_id ≠ c) (hrec : rec.call_control_id = c) :
    ((l ++ [rec]).filter (fun r => r.call_control_id == c)).length = 1 := by
  rw [List.filter_append]
  have h1 : l.filter (fun r => r.call_control_id == c) = [] := by
    rw [List.filter_eq_nil_iff]
    intro r hr
    simp only [beq_iff_eq]
    exact h r hr
  rw [h1]
  simp [hrec]



/-- `save_call_if_new` is a no-op when a row for the call id exists. -/
theorem save_call_if_new_seen (db : DB) (n : Nat) (c fN tN : String)
    (h : db.calls.any (fun r => r.call_control_id == c) = true) :
    save_call_if_new db n c fN tN = db := by
  unfold save_call_if_new
  rw [h]
  simp

/-- `save_call_if_new` appends the row when no row for the call id
exists. -/
theorem save_call_if_new_fresh (db : DB) (n : Nat) (c fN tN : String)
    (h : db.calls.any (fun r => r.call_control_id == c) = false) :
    save_call_if_new db n c fN tN = { db with calls := db.calls ++ [⟨c, fN, tN, n⟩] } := by
  unfold save_call_if_new
  rw [h]
  simp

/-- Shape of one `call.initiated` run with a truthy call id: the store
gains the saved call and the logged event, and the trace is one answer
command followed by one menu command exactly when the answer succeeded. -/
theorem webhookTry_initiated_shape (prov : Provider) (n : Nat) (st : ServerState)
    (evf : Option PayloadField) (ev : EvPayload) (c : String)
    (hev : evDict evf = .ok ev)
    (hc : truthyStr ev.call_control_id = some c) :
    ∃ resp, webhookTry prov n st (some "call.initiated") evf =
      ({ st with db := (log_event (save_call_if_new st.db n c
            ((truthyStr ev.fromF).getD "unknown") ((truthyStr ev.toF).getD "unknown"))
            n c "call.initiated" ev) },
       resp,
       ProvCmd.answer c :: (if prov.answerOk c then [ProvCmd.menu c] else [])) := by
  rcases hPA : prov.answerOk c with _ | _
  · refine ⟨{ status_code := 200, status := "answer_failed" }, ?_⟩
    unfold webhookTry
    rw [if_pos rfl, hev]
    simp only [hc]
    simp [answer_call, start_menu, hPA]
  · refine ⟨{ status_code := 200, status := "answered_and_menu_started" }, ?_⟩
    unfold webhookTry
    rw [if_pos rfl, hev]
    simp only [hc]
    simp [answer_call, start_menu, hPA]

/-- C5: for a call id not previously seen, `call.initiated` appends
exactly one Call record for that id, issues exactly one answer command
and — exactly when the answer succeeded — one menu command after it; and
a second delivery of the same event leaves the Call table with that
single record (the duplicate insert is a storage-layer no-op). -/
theorem C5_initiated_exactly_once (prov : Provider) (now now2 : Nat) (st : ServerState)
    (evf : Option PayloadField) (ev : EvPayload) (c : String)
    (hev : evDict evf = .ok ev)
    (hc : truthyStr ev.call_control_id = some c)
    (hnew : ∀ r ∈ st.db.calls, r.call_control_id ≠ c) :
    ∃ st' resp tr, webhook prov now st (initiatedBody evf) = .ok (st', resp, tr) ∧
      (st'.db.calls.filter (fun r => r.call_control_id == c)).length = 1 ∧
      tr = ProvCmd.answer c :: (if prov.answerOk c then [ProvCmd.menu c] else []) ∧
      ∀ st2 resp2 tr2, webhook prov now2 st' (initiatedBody evf) = .ok (st2, resp2, tr2) →
        (st2.db.calls.filter (fun r => r.call_control_id == c)).length = 1 := by
  have hanyF : st.db.calls.any (fun r => r.call_control_id == c) = false := by
    rw [List.any_eq_false]
    intro r hr
    simp only [beq_iff_eq]
    exact hnew r hr
  obtain ⟨resp1, hw1⟩ := webhookTry_initiated_shape prov now st evf ev c hev hc
  refine ⟨_, resp1, _, (congrArg Except.ok hw1 :
    webhook prov now st (initiatedBody evf) = _), ?_, rfl, ?_⟩
  · simp only [log_event, save_call_if_new_fresh st.db now c _ _ hanyF]
    exact calls_filter_one st.db.calls c ⟨c, (truthyStr ev.fromF).getD "unknown",
      (truthyStr ev.toF).getD "unknown", now⟩ hnew rfl
  · intro st2 resp2 tr2 h2
    obtain ⟨resp1b, hw2⟩ := webhookTry_initiated_shape prov now2
      ({ st with db := (log_event (save_call_if_new st.db now c
            ((truthyStr ev.fromF).getD "unknown") ((truthyStr ev.toF).getD "unknown"))
            now c "call.initiated" ev) }) evf ev c hev hc
    rw [show webhook prov now2 ({ st with db := (log_event (save_call_if_new st.db now c
            ((truthyStr ev.fromF).getD "unknown") ((truthyStr ev.toF).getD "unknown"))
            now c "call.initiated" ev) }) (initiatedBody evf) =
        .ok (webhookTry prov now2 ({ st with db := (log_event (save_call_if_new st.db now c
            ((truthyStr ev.fromF).getD "unknown") ((truthyStr ev.toF).getD "unknown"))
            now c "call.initiated" ev) }) (some "call.initiated") evf) from rfl, hw2] at h2
    simp only [Except.ok.injEq, Prod.mk.injEq] at h2
    obtain ⟨h2st, -, -⟩ := h2
    rw [← h2st]
    have hany2 : (log_event (save_call_if_new st.db now c
          ((truthyStr ev.fromF).getD "unknown") ((truthyStr ev.toF).getD "unknown"))
          now c "call.initiated" ev).calls.any (fun r => r.call_control_id == c) = true := by
      simp only [log_event, save_call_if_new_fresh st.db now c _ _ hanyF]
      rw [List.any_eq_true]
      refine ⟨⟨c, (truthyStr ev.fromF).getD "unknown",
        (truthyStr ev.toF).getD "unknown", now⟩, ?_, ?_⟩
      · simp
      · simp
    rw [save_call_if_new_seen _ now2 c ((truthyStr ev.fromF).getD "unknown")
      ((truthyStr ev.toF).getD "unknown") hany2]
    simp only [log_event, save_call_if_new_fresh st.db now c _ _ hanyF]
    exact calls_filter_one st.db.calls c ⟨c, (truthyStr ev.fromF).getD "unknown",
      (truthyStr ev.toF).getD "unknown", now⟩ hnew rfl

/-- Witness for C5 at a concrete fresh call id from the initial state. -/
theorem C5_initiated_exactly_once_witness :
    (evDict (some (.obj { call_control_id := some "n1" })) =
        .ok { call_control_id := some "n1" }) ∧
    (truthyStr (EvPayload.call_control_id { call_control_id := some "n1" }) = some "n1") ∧
    (∀ r ∈ initState.db.calls, r.call_control_id ≠ "n1") ∧
    (∃ st' resp tr,
      webhook allOkProvider 0 initState
          (initiatedBody (some (.obj { call_control_id := some "n1" }))) =
        .ok (st', resp, tr) ∧
      (st'.db.calls.filter (fun r => r.call_control_id == "n1")).length = 1 ∧
      tr = ProvCmd.answer "n1" ::
        (if allOkProvider.answerOk "n1" then [ProvCmd.menu "n1"] else []) ∧
      ∀ st2 resp2 tr2,
        webhook allOkProvider 1 st'
            (initiatedBody (some (.obj { call_control_id := some "n1" }))) =
          .ok (st2, resp2, tr2) →
        (st2.db.calls.filter (fun r => r.call_control_id == "n1")).length = 1) :=
  ⟨rfl, rfl, by simp [initState],
    C5_initiated_exactly_once allOkProvider 0 1 initState
      (some (.obj { call_control_id := some "n1" })) { call_control_id := some "n1" } "n1"
      rfl rfl (by simp [initState])⟩

/-- Shape of a non-ignored gather whose digit maps to a department: the
IVR selection and the transfer outcome are logged, one transfer command
is issued, and the routed set gains the id exactly on success. -/
theorem webhookTry_gather_mapped_shape (prov : Provider) (n : Nat) (st : ServerState)
    (evf : Option PayloadField) (ev : EvPayload) (c dept : String)
    (hev : evDict evf = .ok ev)
    (hc : truthyStr ev.call_control_id = some c)
    (hr : c ∉ st.ROUTED_CALLS) (he : c ∉ st.ENDED_CALLS)
    (hd : DIGIT_TO_DEPARTMENT (_extract_digits ev) = some dept) :
    webhookTry prov n st (some "call.gather.ended") evf =
      ({ st with
          db := (log_transfer
            (log_ivr_selection (log_event st.db n c "call.gather.ended" ev)
              n c (_extract_digits ev) dept)
            n c (DEPARTMENT_URIS dept)
            (if prov.transferOk c (DEPARTMENT_URIS dept) then "success" else "error"))
          ROUTED_CALLS := if prov.transferOk c (DEPARTMENT_URIS dept) then
            insert c st.ROUTED_CALLS else st.ROUTED_CALLS },
       { status_code := 200, status := "gather_processed", digit := some (_extract_digits ev) },
       [ProvCmd.transfer c (DEPARTMENT_URIS dept)]) := by
  unfold webhookTry
  rw [if_neg (by decide), if_pos rfl, hev]
  simp only [hc]
  rw [if_neg (not_or.mpr ⟨hr, he⟩)]
  simp only [hd]
  simp [transfer_call]

/-- Shape of a non-ignored gather whose digit is unmapped: only the
gather event is logged, and the single provider command is a menu
replay. -/
theorem webhookTry_gather_replay_shape (prov : Provider) (n : Nat) (st : ServerState)
    (evf : Option PayloadField) (ev : EvPayload) (c : String)
    (hev : evDict evf = .ok ev)
    (hc : truthyStr ev.call_control_id = some c)
    (hr : c ∉ st.ROUTED_CALLS) (he : c ∉ st.ENDED_CALLS)
    (hd : DIGIT_TO_DEPARTMENT (_extract_digits ev) = none) :
    webhookTry prov n st (some "call.gather.ended") evf =
      ({ st with db := log_event st.db n c "call.gather.ended" ev },
       { status_code := 200, status := "gather_processed", digit := some (_extract_digits ev) },
       [ProvCmd.menu c]) := by
  unfold webhookTry
  rw [if_neg (by decide), if_pos rfl, hev]
  simp only [hc]
  rw [if_neg (not_or.mpr ⟨hr, he⟩)]
  simp only [hd]
  simp [start_menu]

/-- C3: the digit table is exactly 1→sales, 2→support, 3→porting and
yields nothing outside `{"1","2","3"}`; and a non-ignored
`call.gather.ended` whose extracted digit lies outside that set replays
the menu (its only provider command is one menu command), writes no
IvrSelection and no Transfer record, and leaves the routed and ended
sets unchanged. -/
theorem C3_digit_table_and_replay (prov : Provider) (now : Nat) (st : ServerState)
    (evf : Option PayloadField) (ev : EvPayload) (c : String)
    (hev : evDict evf = .ok ev)
    (hc : truthyStr ev.call_control_id = some c)
    (hr : c ∉ st.ROUTED_CALLS) (he : c ∉ st.ENDED_CALLS)
    (hdig : _extract_digits ev ∉ (["1", "2", "3"] : List String)) :
    (DIGIT_TO_DEPARTMENT "1" = some "sales" ∧
     DIGIT_TO_DEPARTMENT "2" = some "support" ∧
     DIGIT_TO_DEPARTMENT "3" = some "porting" ∧
     (∀ d, d ∉ (["1", "2", "3"] : List String) → DIGIT_TO_DEPARTMENT d = none)) ∧
    ∃ st' resp, webhook prov now st (gatherBody evf) = .ok (st', resp, [ProvCmd.menu c]) ∧
      resp.status = "gather_processed" ∧
      st'.db.ivr_interactions = st.db.ivr_interactions ∧
      st'.db.transfers = st.db.transfers ∧
      st'.ROUTED_CALLS = st.ROUTED_CALLS ∧
      st'.ENDED_CALLS = st.ENDED_CALLS := by
  have htable : ∀ d, d ∉ (["1", "2", "3"] : List String) → DIGIT_TO_DEPARTMENT d = none := by
    intro d hd
    simp only [List.mem_cons, List.mem_singleton, not_or] at hd
    unfold DIGIT_TO_DEPARTMENT
    rw [if_neg hd.1, if_neg hd.2.1, if_neg hd.2.2.1]
  have hd : DIGIT_TO_DEPARTMENT (_extract_digits ev) = none := htable _ hdig
  have hw := webhookTry_gather_replay_shape prov now st evf ev c hev hc hr he hd
  refine ⟨⟨rfl, rfl, rfl, htable⟩, _, _,
    (congrArg Except.ok hw : webhook prov now st (gatherBody evf) = _),
    rfl, ?_, ?_, rfl, rfl⟩
  · simp [log_event]
  · simp [log_event]

/-- C2: a non-ignored gather with a mapped digit issues exactly one
transfer command; on provider success the call id enters the routed set,
on failure the routed set is unchanged (the id stays absent) and the same
delivery repeated later is processed again — acknowledged
`gather_processed` with a fresh transfer attempt — rather than ignored. -/
theorem C2_transfer_success_routes (prov : Provider) (now : Nat) (st : ServerState)
    (evf : Option PayloadField) (ev : EvPayload) (c dept : String)
    (hev : evDict evf = .ok ev)
    (hc : truthyStr ev.call_control_id = some c)
    (hr : c ∉ st.ROUTED_CALLS) (he : c ∉ st.ENDED_CALLS)
    (hd : DIGIT_TO_DEPARTMENT (_extract_digits ev) = some dept) :
    ∃ st' resp, webhook prov now st (gatherBody evf) =
        .ok (st', resp, [ProvCmd.transfer c (DEPARTMENT_URIS dept)]) ∧
      resp.status = "gather_processed" ∧
      (prov.transferOk c (DEPARTMENT_URIS dept) = true →
        st'.ROUTED_CALLS = insert c st.ROUTED_CALLS ∧ c ∈ st'.ROUTED_CALLS) ∧
      (prov.transferOk c (DEPARTMENT_URIS dept) = false →
        st'.ROUTED_CALLS = st.ROUTED_CALLS ∧ c ∉ st'.ROUTED_CALLS ∧
        ∀ now2, ∃ st2 resp2 tr2,
          webhook prov now2 st' (gatherBody evf) = .ok (st2, resp2, tr2) ∧
            resp2.status = "gather_processed" ∧
            ProvCmd.transfer c (DEPARTMENT_URIS dept) ∈ tr2) := by
  have hw := webhookTry_gather_mapped_shape prov now st evf ev c dept hev hc hr he hd
  refine ⟨_,
    { status_code := 200, status := "gather_processed", digit := some (_extract_digits ev) },
    (congrArg Except.ok hw : webhook prov now st (gatherBody evf) = _), rfl, ?_, ?_⟩
  · intro htr
    constructor
    · simp [htr]
    · simp [htr]
  · intro htr
    refine ⟨by simp [htr], by simp [htr, hr], ?_⟩
    intro now2
    have hw2 := webhookTry_gather_mapped_shape prov now2
      ({ st with
          db := (log_transfer
            (log_ivr_selection (log_event st.db now c "call.gather.ended" ev)
              now c (_extract_digits ev) dept)
            now c (DEPARTMENT_URIS dept)
            (if prov.transferOk c (DEPARTMENT_URIS dept) then "success" else "error"))
          ROUTED_CALLS := if prov.transferOk c (DEPARTMENT_URIS dept) then
            insert c st.ROUTED_CALLS else st.ROUTED_CALLS })
      evf ev c dept hev hc (by simp [htr, hr]) (by simp [he]) hd
    have heq2 : webhook prov now2
        ({ st with
            db := (log_transfer
              (log_ivr_selection (log_event st.db now c "call.gather.ended" ev)
                now c (_extract_digits ev) dept)
              now c (DEPARTMENT_URIS dept)
              (if prov.transferOk c (DEPARTMENT_URIS dept) then "success" else "error"))
            ROUTED_CALLS := if prov.transferOk c (DEPARTMENT_URIS dept) then
              insert c st.ROUTED_CALLS else st.ROUTED_CALLS })
        (gatherBody evf) = _ := congrArg Except.ok hw2
    exact ⟨_, _, _, heq2, rfl, by simp⟩

/-- Witness for C1: a duplicate gather for a call id already routed. -/
theorem C1_gather_ignored_idempotence_witness :
    (evDict (some (.obj { call_control_id := some "r" })) =
        .ok { call_control_id := some "r" }) ∧
    (truthyStr (EvPayload.call_control_id { call_control_id := some "r" }) = none ∨
      ∃ c, truthyStr (EvPayload.call_control_id { call_control_id := some "r" }) = some c ∧
        (c ∈ (⟨{"r"}, ∅, ⟨[], [], [], []⟩⟩ : ServerState).ROUTED_CALLS ∨
          c ∈ (⟨{"r"}, ∅, ⟨[], [], [], []⟩⟩ : ServerState).ENDED_CALLS)) ∧
    webhook allOkProvider 0 ⟨{"r"}, ∅, ⟨[], [], [], []⟩⟩
        (gatherBody (some (.obj { call_control_id := some "r" }))) =
      .ok (⟨{"r"}, ∅, ⟨[], [], [], []⟩⟩,
        { status_code := 200, status := "gather_ignored" }, []) :=
  ⟨rfl, Or.inr ⟨"r", rfl, Or.inl (by decide)⟩,
    C1_gather_ignored_idempotence allOkProvider 0 ⟨{"r"}, ∅, ⟨[], [], [], []⟩⟩
      (some (.obj { call_control_id := some "r" })) { call_control_id := some "r" }
      rfl (Or.inr ⟨"r", rfl, Or.inl (by decide)⟩)⟩

/-- Witness for C2: a fresh gather with digit 2 from the initial state. -/
theorem C2_transfer_success_routes_witness :
    (evDict (some (.obj { call_control_id := some "g2", digit := some "2" })) =
        .ok { call_control_id := some "g2", digit := some "2" }) ∧
    (truthyStr (EvPayload.call_control_id
        { call_control_id := some "g2", digit := some "2" }) = some "g2") ∧
    ("g2" ∉ initState.ROUTED_CALLS) ∧ ("g2" ∉ initState.ENDED_CALLS) ∧
    (DIGIT_TO_DEPARTMENT (_extract_digits
        { call_control_id := some "g2", digit := some "2" }) = some "support") ∧
    (∃ st' resp, webhook allOkProvider 0 initState
          (gatherBody (some (.obj { call_control_id := some "g2", digit := some "2" }))) =
        .ok (st', resp, [ProvCmd.transfer "g2" (DEPARTMENT_URIS "support")]) ∧
      resp.status = "gather_processed" ∧
      (allOkProvider.transferOk "g2" (DEPARTMENT_URIS "support") = true →
        st'.ROUTED_CALLS = insert "g2" initState.ROUTED_CALLS ∧ "g2" ∈ st'.ROUTED_CALLS) ∧
      (allOkProvider.transferOk "g2" (DEPARTMENT_URIS "support") = false →
        st'.ROUTED_CALLS = initState.ROUTED_CALLS ∧ "g2" ∉ st'.ROUTED_CALLS ∧
        ∀ now2, ∃ st2 resp2 tr2,
          webhook allOkProvider now2 st'
              (gatherBody (some (.obj { call_control_id := some "g2", digit := some "2" }))) =
            .ok (st2, resp2, tr2) ∧
          resp2.status = "gather_processed" ∧
          ProvCmd.transfer "g2" (DEPARTMENT_URIS "support") ∈ tr2)) :=
  ⟨rfl, rfl, by decide, by decide, by decide,
    C2_transfer_success_routes allOkProvider 0 initState
      (some (.obj { call_control_id := some "g2", digit := some "2" }))
      { call_control_id := some "g2", digit := some "2" } "g2" "support"
      rfl rfl (by decide) (by decide) (by decide)⟩

/-- Witness for C3: a fresh gather with the unmapped digit 9. -/
theorem C3_digit_table_and_replay_witness :
    (evDict (some (.obj { call_control_id := some "g3", digit := some "9" })) =
        .ok { call_control_id := some "g3", digit := some "9" }) ∧
    (truthyStr (EvPayload.call_control_id
        { call_control_id := some "g3", digit := some "9" }) = some "g3") ∧
    ("g3" ∉ initState.ROUTED_CALLS) ∧ ("g3" ∉ initState.ENDED_CALLS) ∧
    (_extract_digits { call_control_id := some "g3", digit := some "9" } ∉
      (["1", "2", "3"] : List String)) ∧
    ((DIGIT_TO_DEPARTMENT "1" = some "sales" ∧
      DIGIT_TO_DEPARTMENT "2" = some "support" ∧
      DIGIT_TO_DEPARTMENT "3" = some "porting" ∧
      (∀ d, d ∉ (["1", "2", "3"] : List String) → DIGIT_TO_DEPARTMENT d = none)) ∧
     ∃ st' resp, webhook allOkProvider 0 initState
          (gatherBody (some (.obj { call_control_id := some "g3", digit := some "9" }))) =
        .ok (st', resp, [ProvCmd.menu "g3"]) ∧
      resp.status = "gather_processed" ∧
      st'.db.ivr_interactions = initState.db.ivr_interactions ∧
      st'.db.transfers = initState.db.transfers ∧
      st'.ROUTED_CALLS = initState.ROUTED_CALLS ∧
      st'.ENDED_CALLS = initState.ENDED_CALLS) :=
  ⟨rfl, rfl, by decide, by decide, by decide,
    C3_digit_table_and_replay allOkProvider 0 initState
      (some (.obj { call_control_id := some "g3", digit := some "9" }))
      { call_control_id := some "g3", digit := some "9" } "g3"
      rfl rfl (by decide) (by decide) (by decide)⟩

/-! ## Analytics queries (`analytics_db.py` read side, `analytics_api.py`)

The SQL of `kpis_24h`/`volume_trend_days`/`recent_calls` is embedded as
list computations: a `LEFT JOIN` produces one row per matching pair plus
one `NULL`-extended row for each unmatched left row, `COUNT(DISTINCT …)`
is `dedup`-length, and `round(x, 3)` is round-half-to-even at three
decimals on exact rationals. -/

/-- Python `round()` to an integer: nearest, ties to even. -/
def pyRoundHalfEven (q : Rat) : Int :=
  let f : Int := q.floor
  if q - (f : Rat) < (1 : Rat) / 2 then f
  else if (1 : Rat) / 2 < q - (f : Rat) then f + 1
  else if f % 2 = 0 then f else f + 1

/-- Python `round(x, 3)`: round half to even at the third decimal. -/
def round3 (q : Rat) : Rat := (pyRoundHalfEven (q * 1000) : Rat) / 1000

/-- The `WHERE created_at >= cutoff` window over the `calls` table. -/
def sqlWindow (db : DB) (cutoff : Nat) : List CallRec :=
  db.calls.filter (fun c => decide (cutoff ≤ c.created_at))

/-- `calls LEFT JOIN ivr_interactions ON call_control_id` restricted to
the window: each windowed call yields its matching IVR rows, or one
`NULL`-extended row when it has none. -/
def leftJoinIvr (db : DB) (cutoff : Nat) : List (CallRec × Option IvrRec) :=
  (sqlWindow db cutoff).flatMap (fun c =>
    match db.ivr_interactions.filter (fun r => r.call_control_id == c.call_control_id) with
    | [] => [(c, none)]
    | ms => ms.map (fun r => (c, some r)))

/-- `transfers JOIN calls` restricted to the window (`kpis_24h`'s
transfer-success query without department filter). -/
def joinTransfersCalls (db : DB) (cutoff : Nat) : List (TransferRec × CallRec) :=
  db.transfers.flatMap (fun t =>
    ((sqlWindow db cutoff).filter
      (fun c => c.call_control_id == t.call_control_id)).map (fun c => (t, c)))

/-- The JSON object returned by `kpis_24h`. -/
structure Kpis where
  window : String
  department : String
  inbound_volume : Nat
  selection_rate : Rat
  transfer_success : Rat
deriving DecidableEq

/-- `kpis_24h`: 24-hour inbound volume, selection rate and transfer
success rate, optionally filtered by department (`if department:` is
Python-truthy, so an empty string behaves like `None`). -/
def kpis_24h (department : Option String) (now : Nat) (db : DB) : Kpis :=
  let cutoff := now - 86400
  match truthyStr department with
  | none =>
    let rows := leftJoinIvr db cutoff
    let inbound_volume := ((rows.map (fun rc => rc.1.call_control_id)).dedup).length
    let with_selection :=
      ((rows.filterMap (fun rc => rc.2.map (fun r => r.call_control_id))).dedup).length
    let total_calls := ((rows.map (fun rc => rc.1.call_control_id)).dedup).length
    let selection_rate : Rat :=
      if total_calls > 0 then (with_selection : Rat) / (total_calls : Rat) else 0
    let trows := joinTransfersCalls db cutoff
    let successful := (trows.filter (fun tc => tc.1.status == "success")).length
    let total_transfers := trows.length
    let transfer_success : Rat :=
      if total_transfers > 0 then (successful : Rat) / (total_transfers : Rat) else 0
    { window := "24h", department := "all", inbound_volume := inbound_volume,
      selection_rate := round3 selection_rate, transfer_success := round3 transfer_success }
  | some d =>
    let drows := (leftJoinIvr db cutoff).filter (fun rc =>
      match rc.2 with
      | some r => r.department == d
      | none => false)
    let inbound_volume := ((drows.map (fun rc => rc.1.call_control_id)).dedup).length
    let with_selection :=
      ((drows.filterMap (fun rc => rc.2.map (fun r => r.call_control_id))).dedup).length
    let total_calls := ((drows.map (fun rc => rc.1.call_control_id)).dedup).length
    let selection_rate : Rat :=
      if total_calls > 0 then (with_selection : Rat) / (total_calls : Rat) else 0
    let trows := db.transfers.flatMap (fun t =>
      ((sqlWindow db cutoff).filter
        (fun c => c.call_control_id == t.call_control_id)).flatMap (fun c =>
        (db.ivr_interactions.filter (fun r =>
          r.call_control_id == c.call_control_id && r.department == d)).map
          (fun r => (t, c, r))))
    let successful := (trows.filter (fun tcr => tcr.1.status == "success")).length
    let total_transfers := trows.length
    let transfer_success : Rat :=
      if total_transfers > 0 then (successful : Rat) / (total_transfers : Rat) else 0
    { window := "24h", department := d, inbound_volume := inbound_volume,
      selection_rate := round3 selection_rate, transfer_success := round3 transfer_success }

/-- `DATE(created_at)` under the `Nat` timestamp model: the day index. -/
def sqlDate (ts : Nat) : Nat := ts / 86400

/-- `volume_trend_days`: daily call volume over the trailing `days` days,
grouped by day, newest day first. -/
def volume_trend_days (days : Int) (department : Option String) (now : Nat) (db : DB) :
    List (Nat × Nat) :=
  let cutoff : Int := (now : Int) - days * 86400
  match truthyStr department with
  | some d =>
    let rows := (db.calls.filter (fun c => decide (cutoff ≤ (c.created_at : Int)))).flatMap
      (fun c =>
        match db.ivr_interactions.filter (fun r => r.call_control_id == c.call_control_id) with
        | [] => [(c, (none : Option IvrRec))]
        | ms => ms.map (fun r => (c, some r)))
    let kept := rows.filter (fun rc =>
      match rc.2 with
      | some r => r.department == d
      | none => true)
    let daysL := ((kept.map (fun rc => sqlDate rc.1.created_at)).dedup).mergeSort
      (fun a b => decide (b ≤ a))
    daysL.map (fun day =>
      (day, ((kept.filter (fun rc => sqlDate rc.1.created_at == day)).map
        (fun rc => rc.1.call_control_id)).dedup.length))
  | none =>
    let kept := db.calls.filter (fun c => decide (cutoff ≤ (c.created_at : Int)))
    let daysL := ((kept.map (fun c => sqlDate c.created_at)).dedup).mergeSort
      (fun a b => decide (b ≤ a))
    daysL.map (fun day =>
      (day, (kept.filter (fun c => sqlDate c.created_at == day)).length))

/-- A row of `recent_calls`: call id, department and digit of a joined
IVR selection (NULL when none), and the call's `created_at`. -/
structure RecentRow where
  call_control_id : String
  department : Option String
  digit : Option String
  ts : Nat
deriving DecidableEq

/-- `recent_calls`: calls left-joined with their IVR selections
(restricted to one department when given), newest first, limited. -/
def recent_calls (lim : Int) (department : Option String) (db : DB) : List RecentRow :=
  let rows : List (CallRec × Option IvrRec) := db.calls.flatMap (fun c =>
    match db.ivr_interactions.filter (fun r => r.call_control_id == c.call_control_id) with
    | [] => [(c, (none : Option IvrRec))]
    | ms => ms.map (fun r => (c, some r)))
  let kept : List (CallRec × Option IvrRec) :=
    match truthyStr department with
    | some d => rows.filter (fun rc =>
        match rc.2 with
        | some r => r.department == d
        | none => false)
    | none => rows
  let sorted := kept.mergeSort (fun a b => decide (b.1.created_at ≤ a.1.created_at))
  (sorted.map (fun rc =>
    ({ call_control_id := rc.1.call_control_id
       department := rc.2.map (fun r => r.department)
       digit := rc.2.map (fun r => r.digit)
       ts := rc.1.created_at } : RecentRow))).take lim.toNat

/-- CPython whitespace (`Py_UNICODE_ISSPACE`), the set `int()` strips
around its argument: 09–0D, 1C–1F, 20, 85, A0, 1680, 2000–200A, 2028,
2029, 202F, 205F, 3000. -/
def pyIsSpace (c : Char) : Bool :=
  let n := c.toNat
  (0x09 ≤ n && n ≤ 0x0D) || (0x1C ≤ n && n ≤ 0x1F) || n == 0x20 || n == 0x85 ||
    n == 0xA0 || n == 0x1680 || (0x2000 ≤ n && n ≤ 0x200A) || n == 0x2028 ||
    n == 0x2029 || n == 0x202F || n == 0x205F || n == 0x3000

/-- The first code point of every run of ten consecutive Unicode decimal
digits (general category Nd, Unicode 15.0); `int()` accepts any of these
as the digits 0–9. -/
def pyDigitRangeStarts : List Nat :=
  [0x30, 0x660, 0x6F0, 0x7C0, 0x966, 0x9E6, 0xA66, 0xAE6, 0xB66, 0xBE6,
   0xC66, 0xCE6, 0xD66, 0xDE6, 0xE50, 0xED0, 0xF20, 0x1040, 0x1090, 0x17E0,
   0x1810, 0x1946, 0x19D0, 0x1A80, 0x1A90, 0x1B50, 0x1BB0, 0x1C40, 0x1C50,
   0xA620, 0xA8D0, 0xA900, 0xA9D0, 0xA9F0, 0xAA50, 0xABF0, 0xFF10,
   0x104A0, 0x10D30, 0x11066, 0x110F0, 0x11136, 0x111D0, 0x112F0, 0x11450,
   0x114D0, 0x11650, 0x116C0, 0x11730, 0x118E0, 0x11950, 0x11C50, 0x11D50,
   0x11DA0, 0x11F50, 0x16A60, 0x16AC0, 0x16B50,
   0x1D7CE, 0x1D7D8, 0x1D7E2, 0x1D7EC, 0x1D7F6,
   0x1E140, 0x1E2F0, 0x1E4F0, 0x1E950, 0x1FBF0]

/-- The decimal value of a Unicode digit character, `none` otherwise. -/
def pyDigitVal? (c : Char) : Option Nat :=
  (pyDigitRangeStarts.find? (fun s => s ≤ c.toNat && c.toNat < s + 10)).map
    (fun s => c.toNat - s)

/-- Continue parsing `digit (underscore? digit)*` after a leading digit:
an underscore must sit between two digits (no trailing, leading or
doubled underscore). -/
def pyIntDigitsAux : Nat → List Char → Option Nat
  | acc, [] => some acc
  | _, ['_'] => none
  | acc, '_' :: c :: rest =>
    match pyDigitVal? c with
    | some d => pyIntDigitsAux (acc * 10 + d) rest
    | none => none
  | acc, c :: rest =>
    match pyDigitVal? c with
    | some d => pyIntDigitsAux (acc * 10 + d) rest
    | none => none

/-- The digit part of `int()`: one or more Unicode decimal digits with
optional single underscores between digits. -/
def pyIntDigits? : List Char → Option Nat
  | [] => none
  | c :: rest =>
    match pyDigitVal? c with
    | some d => pyIntDigitsAux d rest
    | none => none

/-- Python `int(s)` in base 10: optional surrounding whitespace, an
optional single sign, then Unicode decimal digits with optional single
underscores between digits; anything else raises `ValueError`
(`none`). -/
def pyInt? (s : String) : Option Int :=
  let t := ((s.data.dropWhile pyIsSpace).reverse.dropWhile pyIsSpace).reverse
  match t with
  | '-' :: rest => (pyIntDigits? rest).map (fun n => -(n : Int))
  | '+' :: rest => (pyIntDigits? rest).map (fun n => (n : Int))
  | rest => (pyIntDigits? rest).map (fun n => (n : Int))

/-- Fidelity checks against CPython: underscore separators and non-ASCII
decimal digits parse; misplaced underscores and non-digits do not. -/
theorem pyInt?_fidelity :
    pyInt? "1_0" = some 10 ∧ pyInt? "٤٢" = some 42 ∧ pyInt? "-１２" = some (-12) ∧
    pyInt? " 400 " = some 400 ∧ pyInt? "_1" = none ∧ pyInt? "1_" = none ∧
    pyInt? "1__0" = none ∧ pyInt? "4.5" = none ∧ pyInt? "" = none := by
  refine ⟨?_, ?_, ?_, ?_, ?_, ?_, ?_, ?_, ?_⟩ <;> decide

/-- The query-string arguments of the analytics endpoints; a present key
with an empty value is `some ""`, an absent key is `none`. -/
structure QueryArgs where
  department : Option String := none
  days : Option String := none
  lim : Option String := none
deriving DecidableEq

/-- The JSON body of an analytics response. -/
inductive ApiResult where
  | kpis (k : Kpis)
  | trend (days : Int) (department : String) (t : List (Nat × Nat))
  | recent (lim : Int) (department : String) (rows : List RecentRow)
  | error (msg : String)
deriving DecidableEq

/-- `GET /metrics/kpis`: department, when truthy, must be one of the
three valid values, else 400; otherwise the KPI query result. -/
def get_kpis (now : Nat) (db : DB) (args : QueryArgs) : Nat × ApiResult :=
  match truthyStr args.department with
  | some d =>
    if d ∈ (["sales", "support", "porting"] : List String) then
      (200, .kpis (kpis_24h args.department now db))
    else
      (400, .error "Invalid department. Must be: sales, support, or porting")
  | none => (200, .kpis (kpis_24h args.department now db))

/-- `GET /metrics/trend`: `days` (default 7) must parse as an int
(`ValueError` → 400) and lie in [1,365]; department as for kpis. -/
def get_trend (now : Nat) (db : DB) (args : QueryArgs) : Nat × ApiResult :=
  match (match args.days with
         | none => some (7 : Int)
         | some s => pyInt? s) with
  | none => (400, .error "Invalid 'days' parameter. Must be a number")
  | some days =>
    if days < 1 ∨ days > 365 then
      (400, .error "Days must be between 1 and 365")
    else
      match truthyStr args.department with
      | some d =>
        if d ∈ (["sales", "support", "porting"] : List String) then
          (200, .trend days d (volume_trend_days days args.department now db))
        else
          (400, .error "Invalid department. Must be: sales, support, or porting")
      | none =>
        (200, .trend days "all" (volume_trend_days days args.department now db))

/-- `GET /metrics/recent`: `limit` (default 20) must parse as an int
(`ValueError` → 400) and lie in [1,1000]; department as for kpis. -/
def get_recent_calls (db : DB) (args : QueryArgs) : Nat × ApiResult :=
  match (match args.lim with
         | none => some (20 : Int)
         | some s => pyInt? s) with
  | none => (400, .error "Invalid 'limit' parameter. Must be a number")
  | some lim =>
    if lim < 1 ∨ lim > 1000 then
      (400, .error "Limit must be between 1 and 1000")
    else
      match truthyStr args.department with
      | some d =>
        if d ∈ (["sales", "support", "porting"] : List String) then
          (200, .recent lim d (recent_calls lim args.department db))
        else
          (400, .error "Invalid department. Must be: sales, support, or porting")
      | none =>
        (200, .recent lim "all" (recent_calls lim args.department db))

/-! ## C8: the 24h KPI rates -/

/-- The left component of every left-join row is a windowed call. -/
theorem mem_leftJoinIvr_fst {db : DB} {cutoff : Nat} {rc : CallRec × Option IvrRec}
    (h : rc ∈ leftJoinIvr db cutoff) : rc.1 ∈ sqlWindow db cutoff := by
  unfold leftJoinIvr at h
  rw [List.mem_flatMap] at h
  obtain ⟨c, hc, hmem⟩ := h
  rcases hms : db.ivr_interactions.filter
      (fun r => r.call_control_id == c.call_control_id) with _ | ⟨m, ms⟩ <;>
    rw [hms] at hmem
  · simp only [List.mem_singleton] at hmem
    rw [hmem]
    exact hc
  · rw [List.mem_map] at hmem
    obtain ⟨r, -, hr⟩ := hmem
    rw [← hr]
    exact hc

/-- Every windowed call contributes at least one left-join row. -/
theorem leftJoinIvr_exists_row {db : DB} {cutoff : Nat} {c : CallRec}
    (h : c ∈ sqlWindow db cutoff) : ∃ o, (c, o) ∈ leftJoinIvr db cutoff := by
  unfold leftJoinIvr
  rcases hms : db.ivr_interactions.filter
      (fun r => r.call_control_id == c.call_control_id) with _ | ⟨m, ms⟩
  · exact ⟨none, List.mem_flatMap.mpr ⟨c, h, by rw [hms]; simp⟩⟩
  · exact ⟨some m, List.mem_flatMap.mpr ⟨c, h, by rw [hms]; simp⟩⟩

/-- A matched left-join row pairs a call with one of its own IVR rows. -/
theorem leftJoinIvr_snd {db : DB} {cutoff : Nat} {c : CallRec} {r : IvrRec}
    (h : (c, some r) ∈ leftJoinIvr db cutoff) :
    r ∈ db.ivr_interactions ∧ r.call_control_id = c.call_control_id := by
  unfold leftJoinIvr at h
  rw [List.mem_flatMap] at h
  obtain ⟨c', hc', hmem⟩ := h
  rcases hms : db.ivr_interactions.filter
      (fun q => q.call_control_id == c'.call_control_id) with _ | ⟨m, ms⟩ <;>
    rw [hms] at hmem
  · simp at hmem
  · rw [List.mem_map] at hmem
    obtain ⟨q, hq, heq⟩ := hmem
    simp only [Prod.mk.injEq, Option.some.injEq] at heq
    obtain ⟨rfl, rfl⟩ := heq
    have hqf : q ∈ db.ivr_interactions.filter
        (fun s => s.call_control_id == c'.call_control_id) := by
      rw [hms]
      exact hq
    obtain ⟨hmem2, hbeq⟩ := List.mem_filter.mp hqf
    exact ⟨hmem2, beq_iff_eq.mp hbeq⟩

/-- Conversely, a call in the window joins with each of its IVR rows. -/
theorem leftJoinIvr_some_intro {db : DB} {cutoff : Nat} {c : CallRec} {r : IvrRec}
    (hc : c ∈ sqlWindow db cutoff) (hr : r ∈ db.ivr_interactions)
    (hm : r.call_control_id = c.call_control_id) :
    (c, some r) ∈ leftJoinIvr db cutoff := by
  unfold leftJoinIvr
  rw [List.mem_flatMap]
  refine ⟨c, hc, ?_⟩
  have hrf : r ∈ db.ivr_interactions.filter
      (fun q => q.call_control_id == c.call_control_id) :=
    List.mem_filter.mpr ⟨hr, beq_iff_eq.mpr hm⟩
  rcases hms : db.ivr_interactions.filter
      (fun q => q.call_control_id == c.call_control_id) with _ | ⟨m, ms⟩
  · rw [hms] at hrf
    simp at hrf
  · rw [hms, List.mem_map]
    refine ⟨r, ?_, rfl⟩
    rw [hms] at hrf
    exact hrf

/-- Two string lists with the same members have equally many distinct
values. -/
theorem dedup_length_eq {l1 l2 : List String} (h : ∀ x, x ∈ l1 ↔ x ∈ l2) :
    l1.dedup.length = l2.dedup.length := by
  rw [← List.card_toFinset, ← List.card_toFinset]
  congr 1
  ext x
  simp only [List.mem_toFinset]
  exact h x

/-- The window keeps call ids distinct when the `calls` table ids are. -/
theorem window_map_nodup {db : DB} {cutoff : Nat}
    (h : (db.calls.map (fun c => c.call_control_id)).Nodup) :
    ((sqlWindow db cutoff).map (fun c => c.call_control_id)).Nodup :=
  List.Nodup.sublist ((List.filter_sublist _).map _) h

/-- A call in the trailing-24h window has an IVR selection. -/
def hasSelection (db : DB) (c : CallRec) : Bool :=
  db.ivr_interactions.any (fun r => r.call_control_id == c.call_control_id)

/-- `COUNT(DISTINCT c.call_control_id)` over the left join equals the
number of windowed calls when call ids are unique. -/
theorem sql_total_calls (db : DB) (cutoff : Nat)
    (hnd : (db.calls.map (fun c => c.call_control_id)).Nodup) :
    (((leftJoinIvr db cutoff).map (fun rc => rc.1.call_control_id)).dedup).length =
      (sqlWindow db cutoff).length := by
  have h1 : ∀ x, (x ∈ (leftJoinIvr db cutoff).map (fun rc => rc.1.call_control_id)) ↔
      x ∈ (sqlWindow db cutoff).map (fun c => c.call_control_id) := by
    intro x
    simp only [List.mem_map]
    constructor
    · rintro ⟨rc, hrc, rfl⟩
      exact ⟨rc.1, mem_leftJoinIvr_fst hrc, rfl⟩
    · rintro ⟨c, hc, rfl⟩
      obtain ⟨o, ho⟩ := leftJoinIvr_exists_row hc
      exact ⟨(c, o), ho, rfl⟩
  rw [dedup_length_eq h1, List.dedup_eq_self.mpr (window_map_nodup hnd), List.length_map]

/-- `COUNT(DISTINCT ivr.call_control_id)` over the left join equals the
number of windowed calls having a selection, when call ids are unique. -/
theorem sql_with_selection (db : DB) (cutoff : Nat)
    (hnd : (db.calls.map (fun c => c.call_control_id)).Nodup) :
    (((leftJoinIvr db cutoff).filterMap
        (fun rc => rc.2.map (fun r => r.call_control_id))).dedup).length =
      ((sqlWindow db cutoff).filter (hasSelection db)).length := by
  have h1 : ∀ x, (x ∈ (leftJoinIvr db cutoff).filterMap
      (fun rc => rc.2.map (fun r => r.call_control_id))) ↔
      x ∈ ((sqlWindow db cutoff).filter (hasSelection db)).map
        (fun c => c.call_control_id) := by
    intro x
    simp only [List.mem_filterMap, List.mem_map, List.mem_filter]
    constructor
    · rintro ⟨⟨c, o⟩, hrc, hx⟩
      rcases o with _ | r
      · simp at hx
      · simp only [Option.map_some', Option.some.injEq] at hx
        obtain ⟨hr, hcc⟩ := leftJoinIvr_snd hrc
        refine ⟨c, ⟨mem_leftJoinIvr_fst hrc, ?_⟩, by rw [← hx, hcc]⟩
        exact List.any_eq_true.mpr ⟨r, hr, beq_iff_eq.mpr hcc⟩
    · rintro ⟨c, ⟨hc, hsel⟩, rfl⟩
      obtain ⟨r, hr, hbeq⟩ := List.any_eq_true.mp hsel
      refine ⟨(c, some r), leftJoinIvr_some_intro hc hr (beq_iff_eq.mp hbeq), ?_⟩
      simp only [Option.map_some', Option.some.injEq]
      exact beq_iff_eq.mp hbeq
  rw [dedup_length_eq h1]
  have hnd2 : (((sqlWindow db cutoff).filter (hasSelection db)).map
      (fun c => c.call_control_id)).Nodup :=
    List.Nodup.sublist ((List.filter_sublist _).map _) (window_map_nodup hnd)
  rw [List.dedup_eq_self.mpr hnd2, List.length_map]

/-- A filtered count over the transfers-calls join equals the count of
transfers whose call id is a windowed call, when call ids are unique:
each such transfer matches exactly one `calls` row. -/
theorem join_transfers_count (transfers : List TransferRec) (window : List CallRec)
    (hnd : (window.map (fun c => c.call_control_id)).Nodup) (p : TransferRec → Bool) :
    ((transfers.flatMap (fun t => (window.filter
          (fun c => c.call_control_id == t.call_control_id)).map (fun c => (t, c)))).filter
        (fun tc => p tc.1)).length =
      (transfers.filter (fun t => p t &&
        window.any (fun c => c.call_control_id == t.call_control_id))).length := by
  induction transfers with
  | nil => rfl
  | cons t ts ih =>
    have hlen : (window.filter (fun c => c.call_control_id == t.call_control_id)).length =
        if window.any (fun c => c.call_control_id == t.call_control_id) then 1 else 0 := by
      have hcount : (window.filter (fun c => c.call_control_id == t.call_control_id)).length =
          List.count t.call_control_id (window.map (fun c => c.call_control_id)) := by
        rw [← List.countP_eq_length_filter, List.count, List.countP_map]
        rfl
      rcases ha : window.any (fun c => c.call_control_id == t.call_control_id) with _ | _
      · rw [hcount, if_neg (by simp), List.count_eq_zero]
        intro hmem
        rw [List.mem_map] at hmem
        obtain ⟨c, hc, hcc⟩ := hmem
        have : window.any (fun c => c.call_control_id == t.call_control_id) = true :=
          List.any_eq_true.mpr ⟨c, hc, beq_iff_eq.mpr hcc⟩
        rw [ha] at this
        exact Bool.false_ne_true this
      · rw [hcount, if_pos rfl]
        obtain ⟨c, hc, hbeq⟩ := List.any_eq_true.mp ha
        have hmem : t.call_control_id ∈ window.map (fun c => c.call_control_id) :=
          List.mem_map.mpr ⟨c, hc, beq_iff_eq.mp hbeq⟩
        have h1 : 1 ≤ List.count t.call_control_id (window.map (fun c => c.call_control_id)) :=
          List.count_pos_iff.mpr hmem
        have h2 : List.count t.call_control_id (window.map (fun c => c.call_control_id)) ≤ 1 :=
          List.nodup_iff_count_le_one.mp hnd _
        omega
    have hhead : (((window.filter (fun c => c.call_control_id == t.call_control_id)).map
        (fun c => (t, c))).filter (fun tc => p tc.1)).length =
        if p t && window.any (fun c => c.call_control_id == t.call_control_id)
          then 1 else 0 := by
      rcases hp : p t with _ | _
      · have : ((window.filter (fun c => c.call_control_id == t.call_control_id)).map
            (fun c => (t, c))).filter (fun tc => p tc.1) = [] := by
          rw [List.filter_eq_nil_iff]
          rintro ⟨t', c⟩ hmem
          rw [List.mem_map] at hmem
          obtain ⟨c', -, heq⟩ := hmem
          simp only [Prod.mk.injEq] at heq
          rw [← heq.1, hp]
          simp
        rw [this]
        simp
      · have : ((window.filter (fun c => c.call_control_id == t.call_control_id)).map
            (fun c => (t, c))).filter (fun tc => p tc.1) =
            (window.filter (fun c => c.call_control_id == t.call_control_id)).map
              (fun c => (t, c)) := by
          rw [List.filter_eq_self]
          rintro ⟨t', c⟩ hmem
          rw [List.mem_map] at hmem
          obtain ⟨c', -, heq⟩ := hmem
          simp only [Prod.mk.injEq] at heq
          rw [← heq.1, hp]
        rw [this, List.length_map, hlen]
        simp
    rw [List.flatMap_cons, List.filter_append, List.length_append, ih, List.filter_cons, hhead]
    rcases hpa : (p t && window.any (fun c => c.call_control_id == t.call_control_id))
        with _ | _
    · simp
    · simp [Nat.add_comm]

/-- The claim's N: calls in the trailing 24 hours. -/
def kpiWindow (db : DB) (now : Nat) : List CallRec := sqlWindow db (now - 86400)

/-- N = number of calls in the trailing 24 hours. -/
def kpiTotalCalls (db : DB) (now : Nat) : Nat := (kpiWindow db now).length

/-- M = number of those calls with an IVR selection. -/
def kpiSelectedCalls (db : DB) (now : Nat) : Nat :=
  ((kpiWindow db now).filter (hasSelection db)).length

/-- The transfers belonging to calls of the trailing 24 hours. -/
def kpiTransfers (db : DB) (now : Nat) : List TransferRec :=
  db.transfers.filter (fun t =>
    (kpiWindow db now).any (fun c => c.call_control_id == t.call_control_id))

/-- Total transfers of the window. -/
def kpiTransfersTotal (db : DB) (now : Nat) : Nat := (kpiTransfers db now).length

/-- Successful transfers of the window. -/
def kpiTransfersSuccess (db : DB) (now : Nat) : Nat :=
  ((kpiTransfers db now).filter (fun t => t.status == "success")).length

/-- Rounding zero gives zero. -/
theorem pyRoundHalfEven_zero : pyRoundHalfEven 0 = 0 := by
  unfold pyRoundHalfEven
  rw [show ((0 : Rat).floor) = 0 from rfl]
  norm_num

/-- `round3 0 = 0`. -/
theorem round3_zero : round3 0 = 0 := by
  unfold round3
  rw [show ((0 : Rat) * 1000) = 0 by norm_num, pyRoundHalfEven_zero]
  norm_num

/-- C8: with unique call ids in the store, the 24-hour KPI computation
(department absent) returns selection rate `round3 (M/N)` — `0` when
`N = 0` — for `N` the number of calls in the trailing 24 hours and `M`
the number of those with an IVR selection, and transfer success rate
`round3 (S/T)` — `0` when `T = 0` — for `T` the total and `S` the
successful transfers of those calls. -/
theorem C8_kpi_rates (db : DB) (now : Nat)
    (hnd : (db.calls.map (fun c => c.call_control_id)).Nodup) :
    (kpis_24h none now db).selection_rate =
      (if kpiTotalCalls db now = 0 then 0
       else round3 ((kpiSelectedCalls db now : Rat) / (kpiTotalCalls db now : Rat))) ∧
    (kpis_24h none now db).transfer_success =
      (if kpiTransfersTotal db now = 0 then 0
       else round3 ((kpiTransfersSuccess db now : Rat) /
         (kpiTransfersTotal db now : Rat))) := by
  have e1 : (kpis_24h none now db).selection_rate = round3
      (if (((leftJoinIvr db (now - 86400)).map
          (fun rc => rc.1.call_control_id)).dedup).length > 0
       then ((((leftJoinIvr db (now - 86400)).filterMap
            (fun rc => rc.2.map (fun r => r.call_control_id))).dedup).length : Rat) /
          ((((leftJoinIvr db (now - 86400)).map
            (fun rc => rc.1.call_control_id)).dedup).length : Rat)
       else 0) := rfl
  have e2 : (kpis_24h none now db).transfer_success = round3
      (if (joinTransfersCalls db (now - 86400)).length > 0
       then (((joinTransfersCalls db (now - 86400)).filter
            (fun tc => tc.1.status == "success")).length : Rat) /
          ((joinTransfersCalls db (now - 86400)).length : Rat)
       else 0) := rfl
  have htc := sql_total_calls db (now - 86400) hnd
  have hws := sql_with_selection db (now - 86400) hnd
  have htt : (joinTransfersCalls db (now - 86400)).length = kpiTransfersTotal db now := by
    have h := join_transfers_count db.transfers (sqlWindow db (now - 86400))
      (window_map_nodup hnd) (fun _ => true)
    simp only [Bool.true_and, List.filter_true] at h
    unfold joinTransfersCalls kpiTransfersTotal kpiTransfers kpiWindow
    exact h
  have hts : ((joinTransfersCalls db (now - 86400)).filter
      (fun tc => tc.1.status == "success")).length = kpiTransfersSuccess db now := by
    have h := join_transfers_count db.transfers (sqlWindow db (now - 86400))
      (window_map_nodup hnd) (fun t => t.status == "success")
    unfold joinTransfersCalls kpiTransfersSuccess kpiTransfers kpiWindow
    rw [List.filter_filter]
    exact h
  have hN : (sqlWindow db (now - 86400)).length = kpiTotalCalls db now := rfl
  have hM : ((sqlWindow db (now - 86400)).filter (hasSelection db)).length =
      kpiSelectedCalls db now := rfl
  constructor
  · rw [e1, htc, hws, hN, hM]
    rcases Nat.eq_zero_or_pos (kpiTotalCalls db now) with hz | hp
    · rw [hz, if_neg (by omega), if_pos rfl]
      exact round3_zero
    · rw [if_pos (by omega), if_neg (by omega)]
  · rw [e2, htt, hts]
    rcases Nat.eq_zero_or_pos (kpiTransfersTotal db now) with hz | hp
    · rw [hz, if_neg (by omega), if_pos rfl]
      exact round3_zero
    · rw [if_pos (by omega), if_neg (by omega)]

/-- A small concrete store for the C8 witness: two calls in the window,
one with a support selection, two transfer attempts (one success). -/
def kpiDemoDB : DB :=
  ⟨[⟨"a", "f", "t", 100⟩, ⟨"b", "f", "t", 100⟩], [],
   [⟨"a", "2", "support", 101⟩],
   [⟨"a", "sip", "success", 102⟩, ⟨"a", "sip", "error", 103⟩]⟩

/-- Witness for C8 on the concrete store. -/
theorem C8_kpi_rates_witness :
    ((kpiDemoDB.calls.map (fun c => c.call_control_id)).Nodup) ∧
    ((kpis_24h none 100 kpiDemoDB).selection_rate =
      (if kpiTotalCalls kpiDemoDB 100 = 0 then 0
       else round3 ((kpiSelectedCalls kpiDemoDB 100 : Rat) /
         (kpiTotalCalls kpiDemoDB 100 : Rat))) ∧
     (kpis_24h none 100 kpiDemoDB).transfer_success =
      (if kpiTransfersTotal kpiDemoDB 100 = 0 then 0
       else round3 ((kpiTransfersSuccess kpiDemoDB 100 : Rat) /
         (kpiTransfersTotal kpiDemoDB 100 : Rat)))) :=
  ⟨by decide, C8_kpi_rates kpiDemoDB 100 (by decide)⟩

/-! ## C9: analytics parameter validation -/

/-- The response body carries an error message and no query result. -/
def ApiResult.isError : ApiResult → Bool
  | .error _ => true
  | _ => false

/-- C9 (amended): a department parameter with a non-empty value outside
{sales, support, porting} yields 400 with an error body and no query
result on all three endpoints (an empty department value is treated by
the code as absent — see the counterexample); a days parameter that does
not parse as an int in [1,365] yields 400 on `/metrics/trend`; a limit
parameter that does not parse as an int in [1,1000] yields 400 on
`/metrics/recent`. -/
theorem C9_param_validation (now : Nat) (db : DB) (args : QueryArgs) :
    (∀ d, args.department = some d → d ≠ "" →
      d ∉ (["sales", "support", "porting"] : List String) →
      ((get_kpis now db args).1 = 400 ∧ (get_kpis now db args).2.isError = true) ∧
      ((get_trend now db args).1 = 400 ∧ (get_trend now db args).2.isError = true) ∧
      ((get_recent_calls db args).1 = 400 ∧ (get_recent_calls db args).2.isError = true)) ∧
    (∀ s, args.days = some s → (∀ v, pyInt? s = some v → v < 1 ∨ 365 < v) →
      (get_trend now db args).1 = 400 ∧ (get_trend now db args).2.isError = true) ∧
    (∀ s, args.lim = some s → (∀ v, pyInt? s = some v → v < 1 ∨ 1000 < v) →
      (get_recent_calls db args).1 = 400 ∧ (get_recent_calls db args).2.isError = true) := by
  refine ⟨?_, ?_, ?_⟩
  · intro d hd hne hnotin
    have htr : truthyStr args.department = some d := by
      rw [hd]
      show (if d.isEmpty = true then (none : Option String) else some d) = some d
      rw [if_neg (fun h => hne ((String.isEmpty_iff d).mp h))]
    refine ⟨?_, ?_, ?_⟩
    · constructor <;>
      · unfold get_kpis
        simp only [htr]
        rw [if_neg hnotin]
        all_goals rfl
    · constructor <;>
      · rcases hds : (match args.days with
                      | none => some (7 : Int)
                      | some s => pyInt? s) with _ | v
        · unfold get_trend
          simp only [hds]
          all_goals rfl
        · unfold get_trend
          simp only [hds]
          by_cases hrange : v < 1 ∨ v > 365
          · rw [if_pos hrange]
            all_goals rfl
          · rw [if_neg hrange]
            simp only [htr]
            rw [if_neg hnotin]
            all_goals rfl
    · constructor <;>
      · rcases hds : (match args.lim with
                      | none => some (20 : Int)
                      | some s => pyInt? s) with _ | v
        · unfold get_recent_calls
          simp only [hds]
          all_goals rfl
        · unfold get_recent_calls
          simp only [hds]
          by_cases hrange : v < 1 ∨ v > 1000
          · rw [if_pos hrange]
            all_goals rfl
          · rw [if_neg hrange]
            simp only [htr]
            rw [if_neg hnotin]
            all_goals rfl
  · intro s hs hbad
    constructor <;>
    · unfold get_trend
      rw [show (match args.days with
               | none => some (7 : Int)
               | some s => pyInt? s) = pyInt? s from by rw [hs]]
      rcases hp : pyInt? s with _ | v
      · simp only [hp]
        all_goals rfl
      · simp only [hp]
        rw [if_pos (by rcases hbad v hp with h | h <;> omega)]
        all_goals rfl
  · intro s hs hbad
    constructor <;>
    · unfold get_recent_calls
      rw [show (match args.lim with
               | none => some (20 : Int)
               | some s => pyInt? s) = pyInt? s from by rw [hs]]
      rcases hp : pyInt? s with _ | v
      · simp only [hp]
        all_goals rfl
      · simp only [hp]
        rw [if_pos (by rcases hbad v hp with h | h <;> omega)]
        all_goals rfl

/-- Counterexample to C9 as stated: the request `?department=` carries a
department parameter whose value, the empty string, is outside
{sales, support, porting}, yet `if department and …` skips validation
(Python truthiness) and the endpoint answers 200, not 400. -/
theorem C9_counterexample :
    (get_kpis 0 ⟨[], [], [], []⟩ ⟨some "", none, none⟩).1 = 200 := rfl

/-- Witness for C9 (amended): `department=billing`, `days=400` and
`limit=abc` each draw a 400 error on their endpoint. -/
theorem C9_param_validation_witness :
    (((get_kpis 0 ⟨[], [], [], []⟩ ⟨some "billing", none, none⟩).1 = 400 ∧
      (get_kpis 0 ⟨[], [], [], []⟩ ⟨some "billing", none, none⟩).2.isError = true) ∧
     ((get_trend 0 ⟨[], [], [], []⟩ ⟨some "billing", none, none⟩).1 = 400 ∧
      (get_trend 0 ⟨[], [], [], []⟩ ⟨some "billing", none, none⟩).2.isError = true) ∧
     ((get_recent_calls ⟨[], [], [], []⟩ ⟨some "billing", none, none⟩).1 = 400 ∧
      (get_recent_calls ⟨[], [], [], []⟩ ⟨some "billing", none, none⟩).2.isError = true)) ∧
    ((get_trend 0 ⟨[], [], [], []⟩ ⟨none, some "400", none⟩).1 = 400 ∧
     (get_trend 0 ⟨[], [], [], []⟩ ⟨none, some "400", none⟩).2.isError = true) ∧
    ((get_recent_calls ⟨[], [], [], []⟩ ⟨none, none, some "abc"⟩).1 = 400 ∧
     (get_recent_calls ⟨[], [], [], []⟩ ⟨none, none, some "abc"⟩).2.isError = true) :=
  ⟨(C9_param_validation 0 ⟨[], [], [], []⟩ ⟨some "billing", none, none⟩).1 "billing"
      rfl (by decide) (by decide),
   (C9_param_validation 0 ⟨[], [], [], []⟩ ⟨none, some "400", none⟩).2.1 "400" rfl
      (by
        intro v hv
        rw [show pyInt? "400" = some 400 from by decide] at hv
        simp only [Option.some.injEq] at hv
        omega),
   (C9_param_validation 0 ⟨[], [], [], []⟩ ⟨none, none, some "abc"⟩).2.2 "abc" rfl
      (by
        intro v hv
        rw [show pyInt? "abc" = none from by decide] at hv
        cases hv)⟩
